import Mathlib

/-!
Verification of the fastql (fastgraphql) schema-assembly engine against its
natural-language specification.  The definitions below are a shallow
embedding of `fastgraphql/schema.py` and `fastgraphql/application.py`:
Python dictionaries become association lists (insertion ordered, updates
replace in place), Python exceptions become `Option`/`Except` error values,
and the class hierarchy `GraphQLDataType` / `GraphQLReference` /
`GraphQLType` / `GraphQLArray` / `GraphQLScalar` becomes one inductive
type.  Literal braces inside string literals are written with the hex
escapes \x7b and \x7d.
-/

namespace FastGraphQL

/-- Association-list lookup, modelling Python `d[k]` / `k in d`
(first matching key wins; keys are unique in every list built through
`dictInsert`). -/
def dictLookup {β : Type} (d : List (String × β)) (k : String) : Option β :=
  match d with
  | [] => none
  | (k2, v) :: rest => if k2 = k then some v else dictLookup rest k

/-- Association-list update, modelling Python `d[k] = v`: an existing key
keeps its position and gets the new value, a new key is appended at the
end (Python dicts are insertion ordered). -/
def dictInsert {β : Type} (d : List (String × β)) (k : String) (v : β) :
    List (String × β) :=
  match d with
  | [] => [(k, v)]
  | (k2, w) :: rest =>
      if k2 = k then (k2, v) :: rest else (k2, w) :: dictInsert rest k v

/-- The `GraphQLDataType` class hierarchy of `fastgraphql/schema.py`:
`GraphQLReference` (a by-name reference with a nullability flag),
`GraphQLType` (a named object/input type with an ordered attribute list;
`GraphQLTypeAttribute` is inlined as a name/type pair), `GraphQLArray`
(wrapping one item type) and `GraphQLScalar` (the scalar subclasses
`GraphQLInteger`, `GraphQLString`, ... are scalars whose `name` field is
fixed to "Int", "String", ...; their encoder/decoder closures play no role
in the rendering and registry claims). -/
inductive GraphQLDataType : Type where
  | reference (reference : String) (nullable : Bool)
  | type_ (name : String) (attrs : List (String × GraphQLDataType))
      (as_input : Bool)
  | array (item_type : GraphQLDataType)
  | scalar (name : String)

mutual

/-- The `render` methods of the `GraphQLDataType` hierarchy.
`GraphQLReference.render` is `f"{reference}{... '' if nullable else '!'}"`;
`GraphQLType.render` is the triple-quoted template
`"\ntype NAME \x7b\n    ATTRS\n\x7d\n        ".strip()` whose attribute
lines are joined by `"\n    "`; `GraphQLArray.render` is
`f"[{item.render()}]"`; `GraphQLScalar.render` is `f"scalar {name}"`. -/
def GraphQLDataType.render : GraphQLDataType → String
  | .reference r nullable => r ++ (if nullable then "" else "!")
  | .type_ name attrs as_input =>
      (if as_input then "input" else "type") ++ " " ++ name ++
        " \x7b\n    " ++
        String.intercalate "\n    " (renderAttrList attrs) ++ "\n\x7d"
  | .array item_type => "[" ++ item_type.render ++ "]"
  | .scalar name => "scalar " ++ name

/-- `GraphQLTypeAttribute.render`: `f"{name}: {attr_type.render()}"`,
mapped over an attribute list. -/
def renderAttrList : List (String × GraphQLDataType) → List String
  | [] => []
  | (n, t) :: rest => (n ++ ": " ++ t.render) :: renderAttrList rest

end

/-- The `name` attribute access `x.name` used by the registry's sorting
and conflict checks.  Registry values are always `GraphQLScalar` or
`GraphQLType` nodes, which carry a `name`; the remaining two cases are
unreachable there (Python would raise `AttributeError`). -/
def GraphQLDataType.name : GraphQLDataType → String
  | .scalar n => n
  | .type_ n _ _ => n
  | .reference r _ => r
  | .array _ => ""

/-- Python's `isinstance(x, GraphQLScalar)` on a data-type node. -/
def GraphQLDataType.isScalarNode : GraphQLDataType → Bool
  | .scalar _ => true
  | _ => false

/-- Python's `isinstance(x, GraphQLType)` on a data-type node. -/
def GraphQLDataType.isTypeNode : GraphQLDataType → Bool
  | .type_ _ _ _ => true
  | _ => false

/-- `GraphQLFunctionField` as used for rendering: the schema-facing
`name`, the host-language binding `python_name`, and the field's data
type.  In Python `name` and `type` start as `Optional` and are filled in
by the function factory before rendering (`render` asserts `self.type`);
rendered fields always have both set. -/
structure GraphQLFunctionField : Type where
  name : String
  python_name : String
  type : GraphQLDataType

/-- `GraphQLFunctionField.render`: `f"{self.name}: {self.type.render()}"`. -/
def GraphQLFunctionField.render (f : GraphQLFunctionField) : String :=
  f.name ++ ": " ++ f.type.render

/-- `GraphQLFunction`: a named query/mutation with its ordered schema
parameter list and return type.  The `resolver` callable and the
`injected_parameters` list do not participate in rendering or in the
registry's name bookkeeping. -/
structure GraphQLFunction : Type where
  name : String
  return_type : GraphQLDataType
  parameters : List GraphQLFunctionField

/-- `GraphQLFunction.render`: join the parameter renders with `", "`,
wrap them in parentheses only when the joined string is non-empty
(Python's `if parameters:` truthiness test), then append
`": "` and the rendered return type. -/
def GraphQLFunction.render (f : GraphQLFunction) : String :=
  let parameters := String.intercalate ", "
    (f.parameters.map GraphQLFunctionField.render)
  let parameters := if parameters = "" then parameters
    else "(" ++ parameters ++ ")"
  f.name ++ parameters ++ ": " ++ f.return_type.render

/-- `GraphQLSchema`: the five name-keyed registries.  Python stores them
as `Dict[str, GraphQLType]`, `Dict[str, GraphQLScalar]`, ..., modelled as
insertion-ordered association lists. -/
structure GraphQLSchema : Type where
  types : List (String × GraphQLDataType)
  scalars : List (String × GraphQLDataType)
  inputs : List (String × GraphQLDataType)
  queries : List (String × GraphQLFunction)
  mutations : List (String × GraphQLFunction)

/-- The empty registry produced by `GraphQLSchema.__init__`. -/
def GraphQLSchema.empty : GraphQLSchema := ⟨[], [], [], [], []⟩

/-- `GraphQLSchema.check_type_name_conflict`: raises (returns `some`
message) when the entity's name is already a key of `inputs`, of `types`,
or — only when the entity is not itself a `GraphQLScalar` instance — of
`scalars`.  The checks run in exactly this order. -/
def GraphQLSchema.check_type_name_conflict (s : GraphQLSchema)
    (graphql_type : GraphQLDataType) : Option String :=
  if (dictLookup s.inputs graphql_type.name).isSome then
    some ("Name " ++ graphql_type.name ++
      " is already used as an input. Please specify another name!")
  else if (dictLookup s.types graphql_type.name).isSome then
    some ("Name " ++ graphql_type.name ++
      " is already used as an type. Please specify another name!")
  else if (dictLookup s.scalars graphql_type.name).isSome &&
      !graphql_type.isScalarNode then
    some ("Name " ++ graphql_type.name ++
      " is already used as an scalar. Please specify another name!")
  else none

/-- `GraphQLSchema.check_function_name_conflict`: raises when the
function's name is already a key of `queries` or of `mutations`. -/
def GraphQLSchema.check_function_name_conflict (s : GraphQLSchema)
    (f : GraphQLFunction) : Option String :=
  if (dictLookup s.queries f.name).isSome then
    some ("Name " ++ f.name ++
      " is already used for a query. Please specify another name!")
  else if (dictLookup s.mutations f.name).isSome then
    some ("Name " ++ f.name ++
      " is already used for a mutation. Please specify another name!")
  else none

/-- `GraphQLSchema.add_type`: check for a name conflict, then insert into
`types`.  A raised exception is modelled as `(unchanged state, some
message)`; the Python method mutates nothing before raising. -/
def GraphQLSchema.add_type (s : GraphQLSchema)
    (graphql_type : GraphQLDataType) : GraphQLSchema × Option String :=
  match s.check_type_name_conflict graphql_type with
  | some e => (s, some e)
  | none =>
      ({ s with types := dictInsert s.types graphql_type.name graphql_type },
        none)

/-- `GraphQLSchema.add_scalar`: check for a name conflict, then insert
into `scalars`. -/
def GraphQLSchema.add_scalar (s : GraphQLSchema)
    (graphql_type : GraphQLDataType) : GraphQLSchema × Option String :=
  match s.check_type_name_conflict graphql_type with
  | some e => (s, some e)
  | none =>
      ({ s with
          scalars := dictInsert s.scalars graphql_type.name graphql_type },
        none)

/-- `GraphQLSchema.add_input_type`: check for a name conflict, then
insert into `inputs`. -/
def GraphQLSchema.add_input_type (s : GraphQLSchema)
    (graphql_type : GraphQLDataType) : GraphQLSchema × Option String :=
  match s.check_type_name_conflict graphql_type with
  | some e => (s, some e)
  | none =>
      ({ s with
          inputs := dictInsert s.inputs graphql_type.name graphql_type },
        none)

/-- `GraphQLSchema.add_query`: check for a function name conflict, then
insert into `queries`. -/
def GraphQLSchema.add_query (s : GraphQLSchema) (f : GraphQLFunction) :
    GraphQLSchema × Option String :=
  match s.check_function_name_conflict f with
  | some e => (s, some e)
  | none => ({ s with queries := dictInsert s.queries f.name f }, none)

/-- `GraphQLSchema.add_mutation`: check for a function name conflict,
then insert into `mutations`. -/
def GraphQLSchema.add_mutation (s : GraphQLSchema) (f : GraphQLFunction) :
    GraphQLSchema × Option String :=
  match s.check_function_name_conflict f with
  | some e => (s, some e)
  | none => ({ s with mutations := dictInsert s.mutations f.name f }, none)

/-- The comparison Python's `sorted(..., key=lambda x: x.name)` performs
on registry values: a stable sort by name.  `List.insertionSort` with
this relation is stable, hence produces the same list as Python's stable
Timsort. -/
def byName (a b : GraphQLDataType) : Prop := a.name ≤ b.name

instance : DecidableRel byName := fun a b =>
  inferInstanceAs (Decidable (a.name ≤ b.name))

/-- Stable sort by function name, as in
`sorted(functions, key=lambda x: x.name)`. -/
def byFunctionName (a b : GraphQLFunction) : Prop := a.name ≤ b.name

instance : DecidableRel byFunctionName := fun a b =>
  inferInstanceAs (Decidable (a.name ≤ b.name))

/-- The inner helper `sort_and_write` of `GraphQLSchema.render`: sort the
section's values by name and join their renders with one blank line
(`"\n\n"`). -/
def sort_and_write (types : List GraphQLDataType) : String :=
  String.intercalate "\n\n"
    ((List.insertionSort byName types).map GraphQLDataType.render)

/-- The inner helper `sort_and_write_functions` of
`GraphQLSchema.render`: the empty string when there are no functions
(`if not any(functions): return ""`); otherwise the stripped template
`"\ntype Query \x7b\n    SIGNATURES\n\x7d"` (or `type Mutation`), where
the sorted signatures are joined by `"\n\t"` — so the first signature
line is indented with four spaces and every later one with a tab. -/
def sort_and_write_functions (functions : List GraphQLFunction)
    (as_mutation : Bool) : String :=
  if functions.isEmpty then ""
  else
    "type " ++ (if as_mutation then "Mutation" else "Query") ++
      " \x7b\n    " ++
      String.intercalate "\n\t"
        ((List.insertionSort byFunctionName functions).map
          GraphQLFunction.render) ++
      "\n\x7d"

/-- The five section strings of `GraphQLSchema.render`, in source
order. -/
def GraphQLSchema.sections (s : GraphQLSchema) : List String :=
  [sort_and_write (s.scalars.map Prod.snd),
   sort_and_write (s.types.map Prod.snd),
   sort_and_write (s.inputs.map Prod.snd),
   sort_and_write_functions (s.queries.map Prod.snd) false,
   sort_and_write_functions (s.mutations.map Prod.snd) true]

/-- `GraphQLSchema.render`: join the non-empty section strings
(`if len(s)`) with one blank line. -/
def GraphQLSchema.render (s : GraphQLSchema) : String :=
  String.intercalate "\n\n" (s.sections.filter (fun sec => sec ≠ ""))

/-- Well-formedness of a registry state: the `scalars` map holds
`GraphQLScalar` values and the `types`/`inputs` maps hold `GraphQLType`
values — exactly what the Python type annotations
`Dict[str, GraphQLScalar]` / `Dict[str, GraphQLType]` promise. -/
def GraphQLSchema.wellFormedTypes (s : GraphQLSchema) : Prop :=
  (∀ kv ∈ s.scalars, (kv.2).isScalarNode = true) ∧
  (∀ kv ∈ s.types, (kv.2).isTypeNode = true) ∧
  (∀ kv ∈ s.inputs, (kv.2).isTypeNode = true)

instance (s : GraphQLSchema) : Decidable s.wellFormedTypes :=
  inferInstanceAs (Decidable (_ ∧ _ ∧ _))

/-! ### The call-time argument-resolution wrapper of
`FastGraphQL._graphql_function` (`fastgraphql/application.py`).

Incoming GraphQL values are modelled generically: a raw value is
`Option α`, with `none` playing Python `None` (GraphQL null).  The
incoming keyword arguments are an association list; an absent key is an
absent dictionary key (`kwargs[name]` raises `KeyError`). -/

/-- `InjectedFunctionParameter.resolve`: apply the resolver when one is
set (`if r := self.resolver: return r(input)`), otherwise return the
input unchanged. -/
def paramResolve {α : Type} (resolver : Option (α → α)) (input : α) : α :=
  match resolver with
  | some r => r input
  | none => input

/-- The slice of `GraphQLFunctionField` the call-time wrapper reads: the
schema-facing `name`, the host-binding `python_name`, and the optional
`resolver` inherited from `InjectedFunctionParameter`. -/
structure ParameterBinding (α : Type) : Type where
  name : String
  python_name : String
  resolver : Option (α → α)

/-- The exceptions the wrapper can raise before invoking the underlying
callable: a failed `assert` on an unset parameter name, or a `KeyError`
from `kwargs[name]`. -/
inductive CallError : Type where
  | assertionError : CallError
  | keyError (key : String) : CallError
deriving DecidableEq, Repr

/-- The `for parameter in graphql_type.parameters` loop of the
`_decorator` wrapper: assert the parameter's names are set (Python
truthiness: an empty string fails the assert), look the raw value up
under the schema name (`KeyError` when absent), apply
`parameter.resolve` exactly when the value is not `None`, and store the
result under the host-binding name. -/
def resolveKwargsAux {α : Type} (kwargs : List (String × Option α)) :
    List (ParameterBinding α) → List (String × Option α) →
    Except CallError (List (String × Option α))
  | [], acc => .ok acc
  | p :: ps, acc =>
      if p.python_name = "" then .error .assertionError
      else if p.name = "" then .error .assertionError
      else
        match dictLookup kwargs p.name with
        | none => .error (.keyError p.name)
        | some value =>
            resolveKwargsAux kwargs ps
              (dictInsert acc p.python_name
                (match value with
                 | some v => some (paramResolve p.resolver v)
                 | none => none))

/-- The resolved keyword arguments the wrapper builds (starting from the
empty `resolved_kwargs` dict). -/
def resolveKwargs {α : Type} (params : List (ParameterBinding α))
    (kwargs : List (String × Option α)) :
    Except CallError (List (String × Option α)) :=
  resolveKwargsAux kwargs params []

/-- The whole `_decorator` wrapper: resolve the arguments, then invoke
the underlying callable on them (`func(**resolved_kwargs)`).  When
resolution raises, the error propagates and `func` is never applied. -/
def graphqlCall {α β : Type} (func : List (String × Option α) → β)
    (params : List (ParameterBinding α))
    (kwargs : List (String × Option α)) : Except CallError β :=
  (resolveKwargs params kwargs).map func

/-- Argument resolution as §4.2 of the spec words it: "for every schema
parameter, look up the raw incoming value by schema name, run it through
that parameter's resolver when the value is non-null, and rebuild a
host-language call using host-binding names".  `Option.map` applies the
resolver exactly on non-null values and forwards null as null. -/
def specResolveArguments {α : Type} (params : List (ParameterBinding α))
    (kwargs : List (String × Option α)) : List (String × Option α) :=
  params.foldl
    (fun acc p =>
      dictInsert acc p.python_name
        (((dictLookup kwargs p.name).getD none).map
          (paramResolve p.resolver)))
    []

/-! ### The Type Introspection Engine (spec-modelled)

`fastgraphql/factory.py` is not part of the source snapshot — only its
tests and callers are — so `GraphQLTypeFactory.create_graphql_type` is
modelled from the specification (§4.1, §8) and from the expectations of
`tests/fastgraphql/factory/test_type_parsing.py`. -/

mutual

/-- Modelled from the spec: the host-language type declarations the Type
Introspection Engine accepts — the seven primitives, `Optional[T]`,
`List[T]`, and structured (pydantic) models with named fields
(`fastgraphql/factory.py` is missing from the sources). -/
inductive PythonType : Type where
  | int : PythonType
  | str : PythonType
  | float : PythonType
  | bool : PythonType
  | date : PythonType
  | datetime : PythonType
  | time : PythonType
  | optional (inner : PythonType) : PythonType
  | list (inner : PythonType) : PythonType
  | model (name : String) (fields : PythonFields) : PythonType

/-- Modelled from the spec: the ordered named fields of a model
declaration. -/
inductive PythonFields : Type where
  | nil : PythonFields
  | cons (name : String) (type : PythonType) (fields : PythonFields) :
      PythonFields

end

/-- The `.ref(...)` dispatch of the `GraphQLDataType` hierarchy: scalars
and named types are referenced by their name, arrays by their rendered
bracket form (`GraphQLArray.ref` passes `self.render()`); the base class
and `GraphQLReference` raise `NotImplementedError`, modelled as
`none`. -/
def GraphQLDataType.refTarget : GraphQLDataType → Option String
  | .scalar n => some n
  | .type_ n _ _ => some n
  | .array t => some t.render
  | .reference _ _ => none

mutual

/-- Modelled from the spec: `GraphQLTypeFactory.create_graphql_type`
(the contract `resolve(declaration) -> (TypeReferenceable, nullable)` of
§4.1; the source file `fastgraphql/factory.py` is missing).  Object mode;
input mode runs the same algorithm against the input map.  The state is
the map of registered named types.  Step 1: an optional wrapper recurses
and forces `nullable := true`.  Step 2: a list wrapper recurses, builds a
`GraphQLArray` whose inner `GraphQLReference` carries the element's own
nullability, and is itself non-nullable.  Step 3: primitives map to their
scalar singletons, non-nullable.  Step 4: an already-registered model
name returns the existing registration, non-nullable; a new model is
registered as an empty placeholder first (cycle breaking), its fields are
resolved recursively and appended as attributes referencing the resolved
type with its nullability, and the filled type replaces the
placeholder. -/
def createGraphqlType (t : PythonType)
    (registered : List (String × GraphQLDataType)) :
    Except String
      (GraphQLDataType × Bool × List (String × GraphQLDataType)) :=
  match t with
  | .optional inner =>
      match createGraphqlType inner registered with
      | .error e => .error e
      | .ok (dt, _, st) => .ok (dt, true, st)
  | .list inner =>
      match createGraphqlType inner registered with
      | .error e => .error e
      | .ok (dt, nullable, st) =>
          match dt.refTarget with
          | none => .error "NotImplementedError"
          | some r => .ok (.array (.reference r nullable), false, st)
  | .int => .ok (.scalar "Int", false, registered)
  | .str => .ok (.scalar "String", false, registered)
  | .float => .ok (.scalar "Float", false, registered)
  | .bool => .ok (.scalar "Boolean", false, registered)
  | .date => .ok (.scalar "Date", false, registered)
  | .datetime => .ok (.scalar "DateTime", false, registered)
  | .time => .ok (.scalar "Time", false, registered)
  | .model name fields =>
      match dictLookup registered name with
      | some existing => .ok (existing, false, registered)
      | none =>
          match
            createAttrs fields
              (dictInsert registered name (.type_ name [] false)) with
          | .error e => .error e
          | .ok (attrs, st) =>
              .ok (.type_ name attrs false, false,
                dictInsert st name (.type_ name attrs false))

/-- Modelled from the spec: resolving the fields of a model declaration
in order, appending one attribute per field — a reference to the field's
resolved type carrying the field's nullability. -/
def createAttrs (fields : PythonFields)
    (registered : List (String × GraphQLDataType)) :
    Except String
      (List (String × GraphQLDataType) × List (String × GraphQLDataType)) :=
  match fields with
  | .nil => .ok ([], registered)
  | .cons fname ftype rest =>
      match createGraphqlType ftype registered with
      | .error e => .error e
      | .ok (dt, nullable, st) =>
          match dt.refTarget with
          | none => .error "NotImplementedError"
          | some r =>
              match createAttrs rest st with
              | .error e => .error e
              | .ok (attrs, st2) =>
                  .ok ((fname, .reference r nullable) :: attrs, st2)

end

/-- A concrete registry used to exercise the registration operations: the
name "X" is taken by an input type and the name "q" by a query. -/
def exSchema : GraphQLSchema :=
  ⟨[], [], [("X", .type_ "X" [] true)],
    [("q", ⟨"q", .scalar "Int", []⟩)], []⟩

/-- A concrete object type whose name collides with `exSchema`'s input
type "X". -/
def exType : GraphQLDataType := .type_ "X" [] false

/-- A concrete function whose name collides with `exSchema`'s query
"q". -/
def exFun : GraphQLFunction := ⟨"q", .scalar "Int", []⟩

/-! ### Helper lemmas about string joining -/

/-- The separator-prefixed concatenation of a list of strings:
`prefixEach sep [a, b] = sep ++ a ++ sep ++ b`. -/
def prefixEach (sep : String) : List String → String
  | [] => ""
  | x :: xs => sep ++ x ++ prefixEach sep xs

theorem intercalate_go_eq (sep : String) :
    ∀ (l : List String) (acc : String),
      String.intercalate.go acc sep l = acc ++ prefixEach sep l
  | [], acc => by simp [String.intercalate.go, prefixEach]
  | a :: as, acc => by
      rw [String.intercalate.go, intercalate_go_eq sep as]
      simp [prefixEach, String.append_assoc]

theorem intercalate_cons (sep a : String) (l : List String) :
    String.intercalate sep (a :: l) = a ++ prefixEach sep l := by
  rw [String.intercalate, intercalate_go_eq]

theorem length_intercalate_cons (sep a : String) (l : List String) :
    a.length ≤ (String.intercalate sep (a :: l)).length := by
  rw [intercalate_cons, String.length_append]
  exact Nat.le_add_right _ _

theorem string_ne_empty_of_pos {s : String} (h : 0 < s.length) : s ≠ "" := by
  intro he
  subst he
  simp at h

/-! ### Lemmas about the registry's sorting and section emptiness -/

instance : IsTotal GraphQLDataType byName :=
  ⟨fun a b => le_total a.name b.name⟩

instance : IsTrans GraphQLDataType byName :=
  ⟨fun _ _ _ h1 h2 => le_trans h1 h2⟩

instance : IsTotal GraphQLFunction byFunctionName :=
  ⟨fun a b => le_total a.name b.name⟩

instance : IsTrans GraphQLFunction byFunctionName :=
  ⟨fun _ _ _ h1 h2 => le_trans h1 h2⟩

theorem sorted_byName (l : List GraphQLDataType) :
    List.Sorted (fun a b => a ≤ b)
      ((List.insertionSort byName l).map GraphQLDataType.name) := by
  rw [List.Sorted, List.pairwise_map]
  exact List.sorted_insertionSort byName l

theorem sorted_byFunctionName (fs : List GraphQLFunction) :
    List.Sorted (fun a b => a ≤ b)
      ((List.insertionSort byFunctionName fs).map GraphQLFunction.name) := by
  rw [List.Sorted, List.pairwise_map]
  exact List.sorted_insertionSort byFunctionName fs

theorem render_length_pos (v : GraphQLDataType)
    (h : v.isScalarNode = true ∨ v.isTypeNode = true) :
    0 < v.render.length := by
  cases v with
  | scalar n =>
      have h1 : (0 : Nat) < ("scalar " : String).length := by decide
      rw [GraphQLDataType.render, String.length_append]
      omega
  | type_ n attrs ai =>
      have h1 : (0 : Nat) < ("\n\x7d" : String).length := by decide
      rw [GraphQLDataType.render, String.length_append]
      omega
  | reference r nb =>
      simp [GraphQLDataType.isScalarNode, GraphQLDataType.isTypeNode] at h
  | array t =>
      simp [GraphQLDataType.isScalarNode, GraphQLDataType.isTypeNode] at h

theorem sort_and_write_ne_empty (l : List GraphQLDataType) (hl : l ≠ [])
    (h : ∀ v ∈ l, v.isScalarNode = true ∨ v.isTypeNode = true) :
    sort_and_write l ≠ "" := by
  have hperm := List.perm_insertionSort byName l
  cases hs : List.insertionSort byName l with
  | nil =>
      rw [hs] at hperm
      exact absurd hperm.symm.eq_nil hl
  | cons x xs =>
      intro he
      have hx : x ∈ l := hperm.subset (hs ▸ List.mem_cons_self x xs)
      have hpos := render_length_pos x (h x hx)
      have hlen := length_intercalate_cons "\n\n" x.render
        (xs.map GraphQLDataType.render)
      unfold sort_and_write at he
      rw [hs, List.map_cons] at he
      rw [he] at hlen
      simp at hlen
      omega

theorem sort_and_write_functions_ne_empty (fs : List GraphQLFunction)
    (b : Bool) (h : fs ≠ []) : sort_and_write_functions fs b ≠ "" := by
  cases fs with
  | nil => exact absurd rfl h
  | cons f rest =>
      apply string_ne_empty_of_pos
      have h1 : (0 : Nat) < ("\n\x7d" : String).length := by decide
      rw [sort_and_write_functions]
      simp only [List.isEmpty_cons, Bool.false_eq_true, if_false,
        String.length_append]
      omega

theorem sort_and_write_map_empty_iff (l : List (String × GraphQLDataType))
    (h : ∀ kv ∈ l, (kv.2).isScalarNode = true ∨ (kv.2).isTypeNode = true) :
    (sort_and_write (l.map Prod.snd) = "" ↔ l = []) := by
  constructor
  · intro he
    by_contra hne
    have hm : l.map Prod.snd ≠ [] := by
      simpa using hne
    refine sort_and_write_ne_empty (l.map Prod.snd) hm ?_ he
    intro v hv
    obtain ⟨kv, hkv, rfl⟩ := List.mem_map.mp hv
    exact h kv hkv
  · intro h0
    subst h0
    rfl

theorem sort_and_write_functions_map_empty_iff
    (l : List (String × GraphQLFunction)) (b : Bool) :
    (sort_and_write_functions (l.map Prod.snd) b = "" ↔ l = []) := by
  constructor
  · intro he
    by_contra hne
    have hm : l.map Prod.snd ≠ [] := by
      simpa using hne
    exact sort_and_write_functions_ne_empty (l.map Prod.snd) b hm he
  · intro h0
    subst h0
    rfl

/-! ### Lemmas about the name-conflict checks -/

theorem check_type_name_conflict_isSome (s : GraphQLSchema)
    (t : GraphQLDataType)
    (h : (dictLookup s.inputs t.name).isSome = true ∨
      (dictLookup s.types t.name).isSome = true ∨
      ((dictLookup s.scalars t.name).isSome = true ∧
        t.isScalarNode = false)) :
    (s.check_type_name_conflict t).isSome = true := by
  unfold GraphQLSchema.check_type_name_conflict
  rcases h with h | h | ⟨h, hns⟩
  · simp [h]
  · by_cases h1 : (dictLookup s.inputs t.name).isSome <;> simp [h1, h]
  · by_cases h1 : (dictLookup s.inputs t.name).isSome <;>
      by_cases h2 : (dictLookup s.types t.name).isSome <;>
      simp [h1, h2, h, hns]

theorem check_function_name_conflict_isSome (s : GraphQLSchema)
    (f : GraphQLFunction)
    (h : (dictLookup s.queries f.name).isSome = true ∨
      (dictLookup s.mutations f.name).isSome = true) :
    (s.check_function_name_conflict f).isSome = true := by
  unfold GraphQLSchema.check_function_name_conflict
  rcases h with h | h
  · simp [h]
  · by_cases h1 : (dictLookup s.queries f.name).isSome <;> simp [h1, h]

/-! ### Lemmas about the call-time wrapper -/

theorem resolveKwargsAux_ok {α : Type} (kwargs : List (String × Option α)) :
    ∀ (ps : List (ParameterBinding α)) (acc : List (String × Option α)),
      (∀ p ∈ ps, p.python_name ≠ "" ∧ p.name ≠ "" ∧
        (dictLookup kwargs p.name).isSome = true) →
      resolveKwargsAux kwargs ps acc =
        .ok (ps.foldl
          (fun acc2 p =>
            dictInsert acc2 p.python_name
              (((dictLookup kwargs p.name).getD none).map
                (paramResolve p.resolver)))
          acc)
  | [], _, _ => rfl
  | p :: ps, acc, h => by
      obtain ⟨hpn, hn, hlk⟩ := h p (List.mem_cons_self p ps)
      cases hv : dictLookup kwargs p.name with
      | none => rw [hv] at hlk; simp at hlk
      | some value =>
          simp only [resolveKwargsAux, if_neg hpn, if_neg hn, hv]
          rw [resolveKwargsAux_ok kwargs ps _
            (fun q hq => h q (List.mem_cons_of_mem p hq))]
          rw [List.foldl_cons, hv]
          cases value <;> rfl

theorem resolveKwargsAux_missing {α : Type}
    (kwargs : List (String × Option α)) :
    ∀ ps : List (ParameterBinding α),
      (∀ p ∈ ps, p.python_name ≠ "" ∧ p.name ≠ "") →
      (∃ p ∈ ps, dictLookup kwargs p.name = none) →
      ∃ k, dictLookup kwargs k = none ∧
        ∀ acc, resolveKwargsAux kwargs ps acc = .error (.keyError k)
  | [], _, hex => absurd hex (by simp)
  | p :: ps, h, hex => by
      obtain ⟨hpn, hn⟩ := h p (List.mem_cons_self p ps)
      cases hv : dictLookup kwargs p.name with
      | none =>
          refine ⟨p.name, hv, fun acc => ?_⟩
          simp [resolveKwargsAux, if_neg hpn, if_neg hn, hv]
      | some value =>
          have hex2 : ∃ q ∈ ps, dictLookup kwargs q.name = none := by
            obtain ⟨q, hq, hqn⟩ := hex
            rcases List.mem_cons.mp hq with rfl | hq2
            · rw [hv] at hqn; exact absurd hqn (by simp)
            · exact ⟨q, hq2, hqn⟩
          obtain ⟨k, hk, hrec⟩ := resolveKwargsAux_missing kwargs ps
            (fun q hq => h q (List.mem_cons_of_mem p hq)) hex2
          refine ⟨k, hk, fun acc => ?_⟩
          simp only [resolveKwargsAux, if_neg hpn, if_neg hn, hv]
          exact hrec _

/-! ### Lemmas about the introspection model -/

theorem createGraphqlType_optional (u : PythonType)
    (st : List (String × GraphQLDataType)) (dt : GraphQLDataType) (n : Bool)
    (st2 : List (String × GraphQLDataType))
    (h : createGraphqlType (.optional u) st = .ok (dt, n, st2)) :
    ∃ n0, createGraphqlType u st = .ok (dt, n0, st2) ∧ n = true := by
  cases hin : createGraphqlType u st with
  | error e => simp [createGraphqlType, hin] at h
  | ok res =>
      obtain ⟨dt0, n0, st0⟩ := res
      simp only [createGraphqlType, hin, Except.ok.injEq,
        Prod.mk.injEq] at h
      obtain ⟨h1, h2, h3⟩ := h
      subst h1
      subst h3
      exact ⟨n0, rfl, h2.symm⟩

theorem createGraphqlType_list (u : PythonType)
    (st : List (String × GraphQLDataType)) (dt : GraphQLDataType) (n : Bool)
    (st2 : List (String × GraphQLDataType))
    (h : createGraphqlType (.list u) st = .ok (dt, n, st2)) :
    ∃ r dt0 n0, createGraphqlType u st = .ok (dt0, n0, st2) ∧
      dt0.refTarget = some r ∧
      dt = .array (.reference r n0) ∧ n = false := by
  cases hin : createGraphqlType u st with
  | error e => simp [createGraphqlType, hin] at h
  | ok res =>
      obtain ⟨dt0, n0, st0⟩ := res
      cases hrt : dt0.refTarget with
      | none => simp [createGraphqlType, hin, hrt] at h
      | some r =>
          simp only [createGraphqlType, hin, hrt, Except.ok.injEq,
            Prod.mk.injEq] at h
          obtain ⟨h1, h2, h3⟩ := h
          subst h3
          exact ⟨r, dt0, n0, rfl, hrt, h1.symm, h2.symm⟩

theorem createGraphqlType_nullable_false (t : PythonType)
    (st : List (String × GraphQLDataType)) (dt : GraphQLDataType) (n : Bool)
    (st2 : List (String × GraphQLDataType))
    (hno : ∀ u, t ≠ .optional u)
    (h : createGraphqlType t st = .ok (dt, n, st2)) : n = false := by
  cases t with
  | optional u => exact absurd rfl (hno u)
  | list u =>
      obtain ⟨_, _, _, _, _, _, hn⟩ := createGraphqlType_list u st dt n st2 h
      exact hn
  | int => simp only [createGraphqlType, Except.ok.injEq,
      Prod.mk.injEq] at h; exact h.2.1.symm
  | str => simp only [createGraphqlType, Except.ok.injEq,
      Prod.mk.injEq] at h; exact h.2.1.symm
  | float => simp only [createGraphqlType, Except.ok.injEq,
      Prod.mk.injEq] at h; exact h.2.1.symm
  | bool => simp only [createGraphqlType, Except.ok.injEq,
      Prod.mk.injEq] at h; exact h.2.1.symm
  | date => simp only [createGraphqlType, Except.ok.injEq,
      Prod.mk.injEq] at h; exact h.2.1.symm
  | datetime => simp only [createGraphqlType, Except.ok.injEq,
      Prod.mk.injEq] at h; exact h.2.1.symm
  | time => simp only [createGraphqlType, Except.ok.injEq,
      Prod.mk.injEq] at h; exact h.2.1.symm
  | model name fields =>
      cases hlk : dictLookup st name with
      | some existing =>
          simp only [createGraphqlType, hlk, Except.ok.injEq,
            Prod.mk.injEq] at h
          exact h.2.1.symm
      | none =>
          cases hca : createAttrs fields
              (dictInsert st name (.type_ name [] false)) with
          | error e => simp [createGraphqlType, hlk, hca] at h
          | ok res =>
              obtain ⟨attrs, st0⟩ := res
              simp only [createGraphqlType, hlk, hca, Except.ok.injEq,
                Prod.mk.injEq] at h
              exact h.2.1.symm

/-! ### The claims -/

/-- C1: resolving `List[T]` yields a list type whose inner reference is
non-nullable (for a non-optional element declaration `T`) with overall
result non-nullable; resolving `List[Optional[T]]` yields an inner
reference that is nullable; resolving `Optional[List[T]]` yields outer
nullable `true` with the inner reference non-nullable. -/
theorem C1_list_nullability :
    (∀ (T : PythonType) (st : List (String × GraphQLDataType))
        (dt : GraphQLDataType) (n : Bool)
        (st2 : List (String × GraphQLDataType)),
      (∀ u, T ≠ .optional u) →
      createGraphqlType (.list T) st = .ok (dt, n, st2) →
      ∃ r, dt = .array (.reference r false) ∧ n = false) ∧
    (∀ (T : PythonType) (st : List (String × GraphQLDataType))
        (dt : GraphQLDataType) (n : Bool)
        (st2 : List (String × GraphQLDataType)),
      createGraphqlType (.list (.optional T)) st = .ok (dt, n, st2) →
      ∃ r, dt = .array (.reference r true) ∧ n = false) ∧
    (∀ (T : PythonType) (st : List (String × GraphQLDataType))
        (dt : GraphQLDataType) (n : Bool)
        (st2 : List (String × GraphQLDataType)),
      (∀ u, T ≠ .optional u) →
      createGraphqlType (.optional (.list T)) st = .ok (dt, n, st2) →
      ∃ r, dt = .array (.reference r false) ∧ n = true) := by
  refine ⟨?_, ?_, ?_⟩
  · intro T st dt n st2 hno h
    obtain ⟨r, dt0, n0, hin, hrt, hdt, hn⟩ :=
      createGraphqlType_list T st dt n st2 h
    have hn0 : n0 = false :=
      createGraphqlType_nullable_false T st dt0 n0 st2 hno hin
    exact ⟨r, by rw [hdt, hn0], hn⟩
  · intro T st dt n st2 h
    obtain ⟨r, dt0, n0, hin, hrt, hdt, hn⟩ :=
      createGraphqlType_list (.optional T) st dt n st2 h
    obtain ⟨n1, hin2, hn0⟩ := createGraphqlType_optional T st dt0 n0 st2 hin
    exact ⟨r, by rw [hdt, hn0], hn⟩
  · intro T st dt n st2 hno h
    obtain ⟨n0, hin, hn⟩ :=
      createGraphqlType_optional (.list T) st dt n st2 h
    obtain ⟨r, dt0, n1, hin2, hrt, hdt, hn0⟩ :=
      createGraphqlType_list T st dt n0 st2 hin
    have hn1 : n1 = false :=
      createGraphqlType_nullable_false T st dt0 n1 st2 hno hin2
    exact ⟨r, by rw [hdt, hn1], hn⟩

/-- Witness for C1 at the concrete element type `bool`: resolving
`List[bool]` from the empty registry gives the non-nullable array of
non-nullable `Boolean` references. -/
theorem C1_list_nullability_witness :
    (∀ u, PythonType.bool ≠ PythonType.optional u) ∧
    createGraphqlType (.list .bool) [] =
      .ok (.array (.reference "Boolean" false), false, []) ∧
    (∃ r, GraphQLDataType.array (.reference "Boolean" false) =
      .array (.reference r false) ∧ false = false) :=
  ⟨fun _ h => PythonType.noConfusion h, rfl,
    C1_list_nullability.1 .bool []
      (.array (.reference "Boolean" false)) false []
      (fun _ h => PythonType.noConfusion h) rfl⟩

/-- Counterexample for C2: registering the scalar "S" in a registry whose
scalar map already holds the name "S" does NOT fail — `add_scalar`
returns without any error, although the claim demands a name-conflict
error also for scalar-over-scalar registration. -/
theorem C2_counterexample :
    ((GraphQLSchema.empty.add_scalar (.scalar "S")).1.add_scalar
        (.scalar "S")).2 = none ∧
    dictLookup (GraphQLSchema.empty.add_scalar (.scalar "S")).1.scalars
        "S" = some (.scalar "S") :=
  ⟨rfl, rfl⟩

/-- C2 (amended): registering any entity fails with a name-conflict error
when its name is already used by an input type or an object type, and
also when it is used by a scalar while the entity being registered is not
itself a scalar; but a scalar registered under a name held only by a
scalar succeeds and overwrites the existing scalar entry. -/
theorem C2_name_conflict_amended :
    (∀ (s : GraphQLSchema) (t : GraphQLDataType),
      ((dictLookup s.inputs t.name).isSome = true ∨
       (dictLookup s.types t.name).isSome = true ∨
       ((dictLookup s.scalars t.name).isSome = true ∧
         t.isScalarNode = false)) →
      (s.add_type t).2.isSome = true ∧
      (s.add_scalar t).2.isSome = true ∧
      (s.add_input_type t).2.isSome = true) ∧
    (∀ (s : GraphQLSchema) (u : GraphQLDataType),
      u.isScalarNode = true →
      dictLookup s.inputs u.name = none →
      dictLookup s.types u.name = none →
      (s.add_scalar u).2 = none ∧
      (s.add_scalar u).1 =
        { s with scalars := dictInsert s.scalars u.name u }) := by
  constructor
  · intro s t h
    have hc := check_type_name_conflict_isSome s t h
    refine ⟨?_, ?_, ?_⟩
    · unfold GraphQLSchema.add_type
      cases hcc : s.check_type_name_conflict t with
      | none => rw [hcc] at hc; simp at hc
      | some e => rfl
    · unfold GraphQLSchema.add_scalar
      cases hcc : s.check_type_name_conflict t with
      | none => rw [hcc] at hc; simp at hc
      | some e => rfl
    · unfold GraphQLSchema.add_input_type
      cases hcc : s.check_type_name_conflict t with
      | none => rw [hcc] at hc; simp at hc
      | some e => rfl
  · intro s u hu hi ht
    have hc : s.check_type_name_conflict u = none := by
      unfold GraphQLSchema.check_type_name_conflict
      simp [hi, ht, hu]
    constructor
    · unfold GraphQLSchema.add_scalar
      cases hcc : s.check_type_name_conflict u with
      | none => rfl
      | some e => rw [hcc] at hc; simp at hc
    · unfold GraphQLSchema.add_scalar
      cases hcc : s.check_type_name_conflict u with
      | none => rfl
      | some e => rw [hcc] at hc; simp at hc

/-- Witness for C2 (amended): the object type "X" collides with
`exSchema`'s input "X" in all three registration operations, and
re-registering the scalar "S" over itself succeeds. -/
theorem C2_name_conflict_amended_witness :
    ((dictLookup exSchema.inputs exType.name).isSome = true ∨
     (dictLookup exSchema.types exType.name).isSome = true ∨
     ((dictLookup exSchema.scalars exType.name).isSome = true ∧
       exType.isScalarNode = false)) ∧
    ((exSchema.add_type exType).2.isSome = true ∧
     (exSchema.add_scalar exType).2.isSome = true ∧
     (exSchema.add_input_type exType).2.isSome = true) ∧
    (GraphQLDataType.scalar "S").isScalarNode = true ∧
    ((GraphQLSchema.empty.add_scalar (.scalar "S")).2 = none ∧
     (GraphQLSchema.empty.add_scalar (.scalar "S")).1 =
       { GraphQLSchema.empty with
          scalars := dictInsert GraphQLSchema.empty.scalars
            (GraphQLDataType.scalar "S").name (.scalar "S") }) :=
  ⟨Or.inl rfl,
    C2_name_conflict_amended.1 exSchema exType (Or.inl rfl),
    rfl,
    C2_name_conflict_amended.2 GraphQLSchema.empty (.scalar "S")
      rfl rfl rfl⟩

/-- C4: registering a function as a query fails with a name-conflict
error both when its name is already used by a query and when it is
already used by a mutation, and symmetrically for registering it as a
mutation. -/
theorem C4_function_name_conflict (s : GraphQLSchema) (f : GraphQLFunction)
    (h : (dictLookup s.queries f.name).isSome = true ∨
      (dictLookup s.mutations f.name).isSome = true) :
    (s.add_query f).2.isSome = true ∧
    (s.add_mutation f).2.isSome = true := by
  have hc := check_function_name_conflict_isSome s f h
  constructor
  · unfold GraphQLSchema.add_query
    cases hcc : s.check_function_name_conflict f with
    | none => rw [hcc] at hc; simp at hc
    | some e => rfl
  · unfold GraphQLSchema.add_mutation
    cases hcc : s.check_function_name_conflict f with
    | none => rw [hcc] at hc; simp at hc
    | some e => rfl

/-- Witness for C4: the function "q" collides with `exSchema`'s query
"q", so both `add_query` and `add_mutation` fail on it. -/
theorem C4_function_name_conflict_witness :
    ((dictLookup exSchema.queries exFun.name).isSome = true ∨
     (dictLookup exSchema.mutations exFun.name).isSome = true) ∧
    (exSchema.add_query exFun).2.isSome = true ∧
    (exSchema.add_mutation exFun).2.isSome = true :=
  ⟨Or.inl rfl,
    (C4_function_name_conflict exSchema exFun (Or.inl rfl)).1,
    (C4_function_name_conflict exSchema exFun (Or.inl rfl)).2⟩

/-- C6: every registration operation is atomic with respect to failure:
whenever it reports a name-conflict error, the registry is returned
exactly as it was — no map has been touched. -/
theorem C6_registration_atomicity (s : GraphQLSchema)
    (t : GraphQLDataType) (f : GraphQLFunction) :
    ((s.add_type t).2.isSome = true → (s.add_type t).1 = s) ∧
    ((s.add_scalar t).2.isSome = true → (s.add_scalar t).1 = s) ∧
    ((s.add_input_type t).2.isSome = true → (s.add_input_type t).1 = s) ∧
    ((s.add_query f).2.isSome = true → (s.add_query f).1 = s) ∧
    ((s.add_mutation f).2.isSome = true → (s.add_mutation f).1 = s) := by
  refine ⟨?_, ?_, ?_, ?_, ?_⟩
  · intro h
    unfold GraphQLSchema.add_type at h ⊢
    cases hcc : s.check_type_name_conflict t with
    | none => rw [hcc] at h; simp at h
    | some e => rfl
  · intro h
    unfold GraphQLSchema.add_scalar at h ⊢
    cases hcc : s.check_type_name_conflict t with
    | none => rw [hcc] at h; simp at h
    | some e => rfl
  · intro h
    unfold GraphQLSchema.add_input_type at h ⊢
    cases hcc : s.check_type_name_conflict t with
    | none => rw [hcc] at h; simp at h
    | some e => rfl
  · intro h
    unfold GraphQLSchema.add_query at h ⊢
    cases hcc : s.check_function_name_conflict f with
    | none => rw [hcc] at h; simp at h
    | some e => rfl
  · intro h
    unfold GraphQLSchema.add_mutation at h ⊢
    cases hcc : s.check_function_name_conflict f with
    | none => rw [hcc] at h; simp at h
    | some e => rfl

/-- Witness for C6: on `exSchema` the type "X" and the function "q"
collide in every operation, and each operation returns the registry
unchanged. -/
theorem C6_registration_atomicity_witness :
    ((exSchema.add_type exType).2.isSome = true ∧
      (exSchema.add_type exType).1 = exSchema) ∧
    ((exSchema.add_scalar exType).2.isSome = true ∧
      (exSchema.add_scalar exType).1 = exSchema) ∧
    ((exSchema.add_input_type exType).2.isSome = true ∧
      (exSchema.add_input_type exType).1 = exSchema) ∧
    ((exSchema.add_query exFun).2.isSome = true ∧
      (exSchema.add_query exFun).1 = exSchema) ∧
    ((exSchema.add_mutation exFun).2.isSome = true ∧
      (exSchema.add_mutation exFun).1 = exSchema) :=
  ⟨⟨rfl, (C6_registration_atomicity exSchema exType exFun).1 rfl⟩,
   ⟨rfl, (C6_registration_atomicity exSchema exType exFun).2.1 rfl⟩,
   ⟨rfl, (C6_registration_atomicity exSchema exType exFun).2.2.1 rfl⟩,
   ⟨rfl, (C6_registration_atomicity exSchema exType exFun).2.2.2.1 rfl⟩,
   ⟨rfl, (C6_registration_atomicity exSchema exType exFun).2.2.2.2 rfl⟩⟩

/-- C3: `render` joins the non-empty sections — scalars, object types,
input types, the Query block, the Mutation block, in this order — with
exactly one blank line; each type section lists exactly its registered
entries sorted alphabetically by name; a function block exists exactly
when its map is non-empty and lists all its functions sorted
alphabetically inside one `type Query`/`type Mutation` block; empty
sections contribute nothing. -/
theorem C3_render_layout (s : GraphQLSchema) (hwf : s.wellFormedTypes) :
    s.render =
      String.intercalate "\n\n"
        ([sort_and_write (s.scalars.map Prod.snd),
          sort_and_write (s.types.map Prod.snd),
          sort_and_write (s.inputs.map Prod.snd),
          sort_and_write_functions (s.queries.map Prod.snd) false,
          sort_and_write_functions (s.mutations.map Prod.snd) true].filter
          (fun sec => sec ≠ "")) ∧
    (∀ l : List GraphQLDataType,
      sort_and_write l =
        String.intercalate "\n\n"
          ((List.insertionSort byName l).map GraphQLDataType.render) ∧
      List.Sorted (fun a b => a ≤ b)
        ((List.insertionSort byName l).map GraphQLDataType.name) ∧
      (List.insertionSort byName l).Perm l) ∧
    (∀ (fs : List GraphQLFunction) (b : Bool), fs ≠ [] →
      sort_and_write_functions fs b =
        "type " ++ (if b then "Mutation" else "Query") ++ " \x7b\n    " ++
          String.intercalate "\n\t"
            ((List.insertionSort byFunctionName fs).map
              GraphQLFunction.render) ++ "\n\x7d" ∧
      List.Sorted (fun a b => a ≤ b)
        ((List.insertionSort byFunctionName fs).map GraphQLFunction.name) ∧
      (List.insertionSort byFunctionName fs).Perm fs) ∧
    (sort_and_write (s.scalars.map Prod.snd) = "" ↔ s.scalars = []) ∧
    (sort_and_write (s.types.map Prod.snd) = "" ↔ s.types = []) ∧
    (sort_and_write (s.inputs.map Prod.snd) = "" ↔ s.inputs = []) ∧
    (sort_and_write_functions (s.queries.map Prod.snd) false = "" ↔
      s.queries = []) ∧
    (sort_and_write_functions (s.mutations.map Prod.snd) true = "" ↔
      s.mutations = []) := by
  obtain ⟨hsc, hty, hinp⟩ := hwf
  refine ⟨rfl,
    fun l => ⟨rfl, sorted_byName l, List.perm_insertionSort byName l⟩,
    fun fs b hne => ⟨?_, sorted_byFunctionName fs,
      List.perm_insertionSort byFunctionName fs⟩,
    sort_and_write_map_empty_iff s.scalars
      (fun kv hk => Or.inl (hsc kv hk)),
    sort_and_write_map_empty_iff s.types
      (fun kv hk => Or.inr (hty kv hk)),
    sort_and_write_map_empty_iff s.inputs
      (fun kv hk => Or.inr (hinp kv hk)),
    sort_and_write_functions_map_empty_iff s.queries false,
    sort_and_write_functions_map_empty_iff s.mutations true⟩
  cases fs with
  | nil => exact absurd rfl hne
  | cons f rest => rfl

/-- Witness for C3 at the concrete registry `exSchema` (one input type,
one query), whose well-formedness is checked by evaluation. -/
theorem C3_render_layout_witness :
    exSchema.wellFormedTypes ∧
    (exSchema.render =
      String.intercalate "\n\n"
        ([sort_and_write (exSchema.scalars.map Prod.snd),
          sort_and_write (exSchema.types.map Prod.snd),
          sort_and_write (exSchema.inputs.map Prod.snd),
          sort_and_write_functions (exSchema.queries.map Prod.snd) false,
          sort_and_write_functions
            (exSchema.mutations.map Prod.snd) true].filter
          (fun sec => sec ≠ "")) ∧
    (∀ l : List GraphQLDataType,
      sort_and_write l =
        String.intercalate "\n\n"
          ((List.insertionSort byName l).map GraphQLDataType.render) ∧
      List.Sorted (fun a b => a ≤ b)
        ((List.insertionSort byName l).map GraphQLDataType.name) ∧
      (List.insertionSort byName l).Perm l) ∧
    (∀ (fs : List GraphQLFunction) (b : Bool), fs ≠ [] →
      sort_and_write_functions fs b =
        "type " ++ (if b then "Mutation" else "Query") ++ " \x7b\n    " ++
          String.intercalate "\n\t"
            ((List.insertionSort byFunctionName fs).map
              GraphQLFunction.render) ++ "\n\x7d" ∧
      List.Sorted (fun a b => a ≤ b)
        ((List.insertionSort byFunctionName fs).map GraphQLFunction.name) ∧
      (List.insertionSort byFunctionName fs).Perm fs) ∧
    (sort_and_write (exSchema.scalars.map Prod.snd) = "" ↔
      exSchema.scalars = []) ∧
    (sort_and_write (exSchema.types.map Prod.snd) = "" ↔
      exSchema.types = []) ∧
    (sort_and_write (exSchema.inputs.map Prod.snd) = "" ↔
      exSchema.inputs = []) ∧
    (sort_and_write_functions (exSchema.queries.map Prod.snd) false = "" ↔
      exSchema.queries = []) ∧
    (sort_and_write_functions (exSchema.mutations.map Prod.snd) true = "" ↔
      exSchema.mutations = [])) :=
  ⟨by decide, C3_render_layout exSchema (by decide)⟩

/-- C7: the object type `M` with a non-nullable `Int` attribute `t_int`
and a nullable `String` attribute `t_opt_str` renders to exactly the
expected block; a non-nullable reference renders as `name!` and a
nullable one as the bare name; each attribute line of an object block is
preceded by a newline and four spaces. -/
theorem C7_object_type_rendering :
    (GraphQLDataType.type_ "M"
        [("t_int", .reference "Int" false),
         ("t_opt_str", .reference "String" true)] false).render =
      "type M \x7b\n    t_int: Int!\n    t_opt_str: String\n\x7d" ∧
    (∀ name : String,
      (GraphQLDataType.reference name false).render = name ++ "!" ∧
      (GraphQLDataType.reference name true).render = name) ∧
    (∀ (name : String) (a : String × GraphQLDataType)
        (rest : List (String × GraphQLDataType)),
      (GraphQLDataType.type_ name (a :: rest) false).render =
        "type " ++ name ++ " \x7b" ++
          prefixEach "\n    " (renderAttrList (a :: rest)) ++ "\n\x7d") := by
  have hmerge : ∀ (nm Q : String),
      ("type" : String) ++ (" " ++ (nm ++ (" \x7b\n    " ++ Q))) =
        "type " ++ (nm ++ (" \x7b" ++ ("\n    " ++ Q))) := by
    intro nm Q
    rw [← String.append_assoc "type" " ",
      ← String.append_assoc " \x7b" "\n    "]
    rfl
  refine ⟨rfl, fun name => ⟨rfl, String.append_empty name⟩, ?_⟩
  intro name a rest
  obtain ⟨an, at2⟩ := a
  show ("type" : String) ++ " " ++ name ++ " \x7b\n    " ++
      String.intercalate "\n    "
        ((an ++ ": " ++ at2.render) :: renderAttrList rest) ++ "\n\x7d" = _
  rw [intercalate_cons]
  show _ = "type " ++ name ++ " \x7b" ++
      ("\n    " ++ (an ++ ": " ++ at2.render) ++
        prefixEach "\n    " (renderAttrList rest)) ++ "\n\x7d"
  simp only [String.append_assoc]
  exact hmerge name _

/-- C8: a rendered function signature is the function name, then — only
when there is at least one schema parameter — the parenthesized
comma-space-separated parameter renders in declaration order, then a
colon-space and the rendered return type; with zero parameters no
parentheses appear; each parameter renders as `name: Type` (with the
nullability bang coming from the reference render). -/
theorem C8_function_signature_format (f : GraphQLFunction) :
    f.render =
      f.name ++
        (if f.parameters.isEmpty then ""
         else "(" ++ String.intercalate ", "
            (f.parameters.map GraphQLFunctionField.render) ++ ")") ++
        ": " ++ f.return_type.render ∧
    (∀ p : GraphQLFunctionField,
      p.render = p.name ++ ": " ++ p.type.render) := by
  refine ⟨?_, fun p => rfl⟩
  cases hp : f.parameters with
  | nil => simp [GraphQLFunction.render, hp, String.intercalate]
  | cons p ps =>
      have h2 : (2 : Nat) ≤
          (String.intercalate ", "
            ((p :: ps).map GraphQLFunctionField.render)).length := by
        rw [List.map_cons]
        refine le_trans ?_ (length_intercalate_cons ", "
          (GraphQLFunctionField.render p)
          (ps.map GraphQLFunctionField.render))
        have hcolon : (0 : Nat) < (": " : String).length + 0 + 2 := by omega
        show (2 : Nat) ≤ (p.name ++ ": " ++ p.type.render).length
        rw [String.length_append, String.length_append]
        have : (": " : String).length = 2 := rfl
        omega
      have hne : String.intercalate ", "
          ((p :: ps).map GraphQLFunctionField.render) ≠ "" := by
        apply string_ne_empty_of_pos
        omega
      simp only [List.map_cons] at hne
      simp [GraphQLFunction.render, hp, hne]

/-- C9: when the queries (or mutations) map holds at least two functions,
the rendered block indents the first sorted signature with four spaces
but prefixes every later signature with a single tab, so the block's
lines are not uniformly indented. -/
theorem C9_function_block_indentation (fs : List GraphQLFunction)
    (g h2 : GraphQLFunction) (gs : List GraphQLFunction)
    (hs : List.insertionSort byFunctionName fs = g :: h2 :: gs) :
    sort_and_write_functions fs false =
      "type Query \x7b\n    " ++ g.render ++
        prefixEach "\n\t" ((h2 :: gs).map GraphQLFunction.render) ++
        "\n\x7d" ∧
    sort_and_write_functions fs true =
      "type Mutation \x7b\n    " ++ g.render ++
        prefixEach "\n\t" ((h2 :: gs).map GraphQLFunction.render) ++
        "\n\x7d" := by
  have hne : fs ≠ [] := by
    intro h0
    subst h0
    simp [List.insertionSort] at hs
  have hq : ∀ R : String,
      ("type" : String) ++ (" " ++ ("Query" ++ (" \x7b\n    " ++ R))) =
        "type Query \x7b\n    " ++ R := by
    intro R
    rw [← String.append_assoc "type" " ",
      ← String.append_assoc ("type" ++ " ") "Query"]
    rfl
  have hm : ∀ R : String,
      ("type" : String) ++ (" " ++ ("Mutation" ++ (" \x7b\n    " ++ R))) =
        "type Mutation \x7b\n    " ++ R := by
    intro R
    rw [← String.append_assoc "type" " ",
      ← String.append_assoc ("type" ++ " ") "Mutation"]
    rfl
  cases fs with
  | nil => exact absurd rfl hne
  | cons f rest =>
      constructor
      · show ("type" : String) ++ " " ++ "Query" ++ " \x7b\n    " ++
            String.intercalate "\n\t"
              ((List.insertionSort byFunctionName (f :: rest)).map
                GraphQLFunction.render) ++ "\n\x7d" = _
        rw [hs, List.map_cons, intercalate_cons]
        simp only [String.append_assoc]
        exact hq _
      · show ("type" : String) ++ " " ++ "Mutation" ++ " \x7b\n    " ++
            String.intercalate "\n\t"
              ((List.insertionSort byFunctionName (f :: rest)).map
                GraphQLFunction.render) ++ "\n\x7d" = _
        rw [hs, List.map_cons, intercalate_cons]
        simp only [String.append_assoc]
        exact hm _

/-- Witness for C9 on the two-function registry `["b", "a"]`: the sorted
block puts `a` first after four spaces and `b` after a tab. -/
theorem C9_function_block_indentation_witness :
    List.insertionSort byFunctionName
        ([⟨"b", .scalar "Int", []⟩, ⟨"a", .scalar "Int", []⟩] :
          List GraphQLFunction) =
      [⟨"a", .scalar "Int", []⟩, ⟨"b", .scalar "Int", []⟩] ∧
    sort_and_write_functions
        ([⟨"b", .scalar "Int", []⟩, ⟨"a", .scalar "Int", []⟩] :
          List GraphQLFunction) false =
      "type Query \x7b\n    " ++
        (⟨"a", .scalar "Int", []⟩ : GraphQLFunction).render ++
        prefixEach "\n\t"
          (([⟨"b", .scalar "Int", []⟩] : List GraphQLFunction).map
            GraphQLFunction.render) ++ "\n\x7d" ∧
    sort_and_write_functions
        ([⟨"b", .scalar "Int", []⟩, ⟨"a", .scalar "Int", []⟩] :
          List GraphQLFunction) true =
      "type Mutation \x7b\n    " ++
        (⟨"a", .scalar "Int", []⟩ : GraphQLFunction).render ++
        prefixEach "\n\t"
          (([⟨"b", .scalar "Int", []⟩] : List GraphQLFunction).map
            GraphQLFunction.render) ++ "\n\x7d" := by
  have hsort : List.insertionSort byFunctionName
      ([⟨"b", .scalar "Int", []⟩, ⟨"a", .scalar "Int", []⟩] :
        List GraphQLFunction) =
      [⟨"a", .scalar "Int", []⟩, ⟨"b", .scalar "Int", []⟩] := by
    simp only [List.insertionSort, List.orderedInsert, byFunctionName]
    rw [if_neg]
    simp [String.le_iff_toList_le]
    decide
  exact ⟨hsort,
    (C9_function_block_indentation _ _ _ _ hsort).1,
    (C9_function_block_indentation _ _ _ _ hsort).2⟩

/-- C5: when every schema parameter's name is present in the incoming
keyword arguments (and the parameter names are set), the call-time
wrapper invokes the underlying callable on exactly the keyword arguments
the spec describes — looked up by schema name, run through the
parameter's resolver exactly when non-null (null forwarded as null),
keyed by the host-binding name; a parameter without a resolver passes its
value through unchanged. -/
theorem C5_call_time_resolution {α β : Type}
    (params : List (ParameterBinding α))
    (kwargs : List (String × Option α))
    (func : List (String × Option α) → β)
    (h : ∀ p ∈ params, p.python_name ≠ "" ∧ p.name ≠ "" ∧
      (dictLookup kwargs p.name).isSome = true) :
    graphqlCall func params kwargs =
      .ok (func (specResolveArguments params kwargs)) ∧
    (∀ (v : α) (r : α → α), paramResolve (some r) v = r v) ∧
    (∀ v : α, paramResolve (none : Option (α → α)) v = v) := by
  refine ⟨?_, fun v r => rfl, fun v => rfl⟩
  unfold graphqlCall resolveKwargs specResolveArguments
  rw [resolveKwargsAux_ok kwargs params [] h]
  rfl

/-- Witness for C5: two parameters — one with a successor resolver
receiving `5`, one with no resolver receiving an explicit null — produce
`pa ↦ 6` and `pb ↦ null`. -/
theorem C5_call_time_resolution_witness :
    (∀ p ∈ ([⟨"a", "pa", some (fun n => n + 1)⟩, ⟨"b", "pb", none⟩] :
        List (ParameterBinding Nat)),
      p.python_name ≠ "" ∧ p.name ≠ "" ∧
      (dictLookup [("a", some 5), ("b", none)] p.name).isSome = true) ∧
    graphqlCall (fun l => l)
        ([⟨"a", "pa", some (fun n => n + 1)⟩, ⟨"b", "pb", none⟩] :
          List (ParameterBinding Nat))
        [("a", some 5), ("b", none)] =
      .ok ((fun l => l)
        (specResolveArguments
          ([⟨"a", "pa", some (fun n => n + 1)⟩, ⟨"b", "pb", none⟩] :
            List (ParameterBinding Nat))
          [("a", some 5), ("b", none)])) :=
  ⟨by decide,
    (C5_call_time_resolution
      ([⟨"a", "pa", some (fun n => n + 1)⟩, ⟨"b", "pb", none⟩] :
        List (ParameterBinding Nat))
      [("a", some 5), ("b", none)] (fun l => l) (by decide)).1⟩

/-- C10: when some schema parameter's name is absent from the incoming
keyword arguments — even a nullable parameter's — the wrapper fails with
a `KeyError` whose key is missing from the arguments, and it does so
uniformly in the underlying callable (the same error for every callable,
so the callable is never invoked); when every name is present — an
explicit null included — the call goes through with nulls forwarded. -/
theorem C10_required_argument {α β : Type}
    (params : List (ParameterBinding α))
    (kwargs : List (String × Option α))
    (hnames : ∀ p ∈ params, p.python_name ≠ "" ∧ p.name ≠ "") :
    ((∃ p ∈ params, dictLookup kwargs p.name = none) →
      ∃ k, dictLookup kwargs k = none ∧
        ∀ func : List (String × Option α) → β,
          graphqlCall func params kwargs = .error (.keyError k)) ∧
    ((∀ p ∈ params, (dictLookup kwargs p.name).isSome = true) →
      ∀ func : List (String × Option α) → β,
        graphqlCall func params kwargs =
          .ok (func (specResolveArguments params kwargs))) := by
  constructor
  · intro hex
    obtain ⟨k, hk, hr⟩ := resolveKwargsAux_missing kwargs params hnames hex
    refine ⟨k, hk, fun func => ?_⟩
    unfold graphqlCall resolveKwargs
    rw [hr]
    rfl
  · intro hall func
    unfold graphqlCall resolveKwargs specResolveArguments
    rw [resolveKwargsAux_ok kwargs params []
      (fun p hp => ⟨(hnames p hp).1, (hnames p hp).2, hall p hp⟩)]
    rfl

/-- Witness for C10: a single nullable parameter "a" with empty incoming
arguments makes the wrapper fail with a `KeyError` for every underlying
callable. -/
theorem C10_required_argument_witness :
    (∀ p ∈ ([⟨"a", "pa", none⟩] : List (ParameterBinding Nat)),
      p.python_name ≠ "" ∧ p.name ≠ "") ∧
    (∃ p ∈ ([⟨"a", "pa", none⟩] : List (ParameterBinding Nat)),
      dictLookup ([] : List (String × Option Nat)) p.name = none) ∧
    (∃ k, dictLookup ([] : List (String × Option Nat)) k = none ∧
      ∀ func : List (String × Option Nat) → List (String × Option Nat),
        graphqlCall func ([⟨"a", "pa", none⟩] : List (ParameterBinding Nat))
          [] = .error (.keyError k)) :=
  ⟨by decide, by decide,
    (C10_required_argument ([⟨"a", "pa", none⟩] :
        List (ParameterBinding Nat)) [] (by decide)).1 (by decide)⟩

end FastGraphQL
